import Mathlib

/-!
Shallow embedding of the GridMadness isometric pipeline:
`isometric_renderer.py` (camera state, rotation, grid→screen projection,
depth metric), `viewport_manager.py` (viewport window state, clamping,
coordinate round-trips), `mouse_hit_detector.py` (inverse projection,
candidate expansion, point-in-triangle / point-in-diamond hit tests,
depth-sorted disambiguation) and the draw-order computation in `main.py`.

Python floats are modelled as real numbers; Python `int(x)` truncation is
`pyInt`; Python `//` on ints is `Int.fdiv` (floor division); Python's
stable `list.sort` is `List.insertionSort` with the non-strict key order
(extensionally the unique stable sort).
-/

noncomputable section

/-- Python `int(x)` : truncation toward zero. -/
def pyInt (x : ℝ) : ℤ := if x < 0 then ⌈x⌉ else ⌊x⌋

/-- Python `math.radians`. -/
def radians (d : ℝ) : ℝ := d * Real.pi / 180

/-- Embedding of the `CameraState` dataclass from `isometric_renderer.py` (field defaults:
rotation 0, zoom 1, offsets 0, center (128, 96)). -/
structure CameraState where
  rotation : ℝ
  zoom : ℝ
  offset_x : ℝ
  offset_y : ℝ
  center_x : ℝ
  center_y : ℝ

/-- The default `CameraState()`. -/
def defaultCamera : CameraState :=
  { rotation := 0, zoom := 1, offset_x := 0, offset_y := 0
    center_x := 128, center_y := 96 }

/-- Embedding of `IsometricRenderer._rotate_coordinates`: fast-path identity at rotation 0,
otherwise rotate the center-relative vector and translate back by the center. -/
def rotate_coordinates (gx gy rotation cx cy : ℝ) : ℝ × ℝ :=
  if rotation = 0 then (gx, gy)
  else
    let cos_a := Real.cos (radians rotation)
    let sin_a := Real.sin (radians rotation)
    let rel_x := gx - cx
    let rel_y := gy - cy
    (rel_x * cos_a - rel_y * sin_a + cx, rel_x * sin_a + rel_y * cos_a + cy)

/-- Embedding of `IsometricRenderer.grid_to_iso` (cache omitted: it only memoizes the pure
computation). `cell_size` and `height_unit` are the constructor parameters;
the viewport center is hard-coded to (8, 8) in the source. -/
def grid_to_iso (cell_size height_unit : ℕ) (gx gy h : ℝ)
    (cam : CameraState) : ℝ × ℝ :=
  let r := rotate_coordinates gx gy cam.rotation 8 8
  let iso_x := (r.1 - r.2) * ((cell_size / 2 : ℕ) : ℝ)
  let iso_y := (r.1 + r.2) * ((cell_size / 4 : ℕ) : ℝ) - h * (height_unit : ℝ)
  (cam.center_x + iso_x * cam.zoom + cam.offset_x,
   cam.center_y + iso_y * cam.zoom + cam.offset_y)

/-- Embedding of `IsometricRenderer.get_tile_depth`: rotate about the viewport center
(8, 8), then `rotated_x + rotated_y - height * 0.1`. -/
def get_tile_depth (gx gy h : ℝ) (cam : CameraState) : ℝ :=
  let r := rotate_coordinates gx gy cam.rotation 8 8
  r.1 + r.2 - h * (1 / 10)

end

/-- Embedding of the `ViewportState` dataclass from `viewport_manager.py`: window position
`(x, y)` into the 256×256 backing map and window `size`. -/
structure ViewportState where
  x : ℤ
  y : ℤ
  size : ℤ
  deriving DecidableEq

/-- The clamping applied throughout `viewport_manager.py`:
`max(0, min(v, 256 - size))`. -/
def clampCoord (size v : ℤ) : ℤ := max 0 (min v (256 - size))

/-- Embedding of `ViewportState.__post_init__`: construction clamps both coordinates. -/
def ViewportState.init (x y size : ℤ) : ViewportState :=
  { x := clampCoord size x, y := clampCoord size y, size := size }

/-- Embedding of `ViewportManager.set_viewport_position`: clamp the requested position;
update and return `true` exactly when the clamped position differs from the
current one. -/
def set_viewport_position (vs : ViewportState) (x y : ℤ) : ViewportState × Bool :=
  let x' := clampCoord vs.size x
  let y' := clampCoord vs.size y
  if x' ≠ vs.x ∨ y' ≠ vs.y then ({ vs with x := x', y := y' }, true)
  else (vs, false)

/-- Embedding of `ViewportManager.move_viewport`: add the delta, clamp, update and return
`true` exactly when the clamped position differs from the current one. -/
def move_viewport (vs : ViewportState) (dx dy : ℤ) : ViewportState × Bool :=
  let x' := clampCoord vs.size (vs.x + dx)
  let y' := clampCoord vs.size (vs.y + dy)
  if x' ≠ vs.x ∨ y' ≠ vs.y then ({ vs with x := x', y := y' }, true)
  else (vs, false)

/-- Embedding of `ViewportManager.is_position_in_viewport` via `get_viewport_bounds`:
`x ≤ mx ≤ x + size - 1` and likewise for `y`. -/
def is_position_in_viewport (vs : ViewportState) (mx my : ℤ) : Prop :=
  vs.x ≤ mx ∧ mx ≤ vs.x + vs.size - 1 ∧ vs.y ≤ my ∧ my ≤ vs.y + vs.size - 1

instance (vs : ViewportState) (mx my : ℤ) :
    Decidable (is_position_in_viewport vs mx my) := by
  unfold is_position_in_viewport; infer_instance

/-- Embedding of `ViewportManager.map_to_viewport_coords`: backing → window-local,
`none` when the backing coordinate is outside the current window. -/
def map_to_viewport_coords (vs : ViewportState) (mx my : ℤ) : Option (ℤ × ℤ) :=
  if is_position_in_viewport vs mx my then some (mx - vs.x, my - vs.y)
  else none

/-- Embedding of `ViewportManager.viewport_to_map_coords`: window-local → backing. -/
def viewport_to_map_coords (vs : ViewportState) (lx ly : ℤ) : ℤ × ℤ :=
  (vs.x + lx, vs.y + ly)

/-- A map tile as the hit detector sees it: only `height` feeds the math
(`floor_id`, `attribute`, `color` are opaque to projection and hit tests). -/
structure Tile where
  height : ℤ
  deriving DecidableEq

noncomputable section

/-- Embedding of `MouseHitDetector._point_in_triangle`: barycentric sign test with the
1e-10 degeneracy tolerance resolving to "not hit". -/
def point_in_triangle (px py : ℝ) (p1 p2 p3 : ℝ × ℝ) : Prop :=
  let denom := (p2.2 - p3.2) * (p1.1 - p3.1) + (p3.1 - p2.1) * (p1.2 - p3.2)
  if |denom| < 1 / 10 ^ 10 then False
  else
    let a := ((p2.2 - p3.2) * (px - p3.1) + (p3.1 - p2.1) * (py - p3.2)) / denom
    let b := ((p3.2 - p1.2) * (px - p3.1) + (p1.1 - p3.1) * (py - p3.2)) / denom
    let c := 1 - a - b
    0 ≤ a ∧ a ≤ 1 ∧ 0 ≤ b ∧ b ≤ 1 ∧ 0 ≤ c ∧ c ≤ 1

instance (px py : ℝ) (p1 p2 p3 : ℝ × ℝ) :
    Decidable (point_in_triangle px py p1 p2 p3) := by
  unfold point_in_triangle; infer_instance

/-- Embedding of `MouseHitDetector._is_point_in_diamond`: project the tile at its real
height, rebuild the four roof vertices from the truncated scaled cell size,
and test the pointer against the four-triangle decomposition.  The unused
`win_width`/`win_height` parameters of the Python method are dropped. -/
def is_point_in_diamond (cell_size height_unit : ℕ) (mx my : ℤ)
    (gx gy : ℤ) (t : Tile) (cam : CameraState) : Prop :=
  let sc := grid_to_iso cell_size height_unit (gx : ℝ) (gy : ℝ) (t.height : ℝ) cam
  let scs := pyInt ((cell_size : ℝ) * cam.zoom)
  let top : ℝ × ℝ := (sc.1 + ((scs.fdiv 2 : ℤ) : ℝ), sc.2)
  let left : ℝ × ℝ := (sc.1, sc.2 + ((scs.fdiv 4 : ℤ) : ℝ))
  let right : ℝ × ℝ := (sc.1 + (scs : ℝ), sc.2 + ((scs.fdiv 4 : ℤ) : ℝ))
  let bottom : ℝ × ℝ := (sc.1 + ((scs.fdiv 2 : ℤ) : ℝ), sc.2 + ((scs.fdiv 2 : ℤ) : ℝ))
  point_in_triangle (mx : ℝ) (my : ℝ) top left bottom ∨
  point_in_triangle (mx : ℝ) (my : ℝ) top right bottom ∨
  point_in_triangle (mx : ℝ) (my : ℝ) left bottom right ∨
  point_in_triangle (mx : ℝ) (my : ℝ) top left right

instance (cell_size height_unit : ℕ) (mx my gx gy : ℤ) (t : Tile)
    (cam : CameraState) :
    Decidable (is_point_in_diamond cell_size height_unit mx my gx gy t cam) := by
  unfold is_point_in_diamond; infer_instance

/-- Embedding of `MouseHitDetector._get_candidate_tiles`: invert zoom/pan about the
window center, invert the isometric transform, undo the rotation about the
viewport center, truncate, and expand to the 5×5 neighbourhood filtered to
the viewport bounds (dy outer loop, dx inner loop, both from -2 to 2). -/
def get_candidate_tiles (cell_size : ℕ) (mx my : ℤ) (cam : CameraState)
    (win_w win_h vsize : ℤ) : List (ℤ × ℤ) :=
  let center_x : ℝ := ((win_w.fdiv 2 : ℤ) : ℝ)
  let center_y : ℝ := ((win_h.fdiv 2 : ℤ) : ℝ)
  let unzoomed_x := center_x + ((mx : ℝ) - center_x) / cam.zoom
  let unzoomed_y := center_y + ((my : ℝ) - center_y) / cam.zoom
  let iso_x := unzoomed_x - center_x - cam.offset_x
  let iso_y := unzoomed_y - center_y - cam.offset_y
  let half_cell : ℝ := (cell_size : ℝ) / 2
  let quarter_cell : ℝ := (cell_size : ℝ) / 4
  let gx0 := (iso_x / half_cell + iso_y / quarter_cell) / 2
  let gy0 := (iso_y / quarter_cell - iso_x / half_cell) / 2
  let g : ℝ × ℝ :=
    if cam.rotation ≠ 0 then
      let cos_a := Real.cos (-(radians cam.rotation))
      let sin_a := Real.sin (-(radians cam.rotation))
      let center : ℝ := ((vsize.fdiv 2 : ℤ) : ℝ)
      let rel_x := gx0 - center
      let rel_y := gy0 - center
      (rel_x * cos_a - rel_y * sin_a + center, rel_x * sin_a + rel_y * cos_a + center)
    else (gx0, gy0)
  let base_x := pyInt g.1
  let base_y := pyInt g.2
  (List.range 5).flatMap fun dy =>
    (List.range 5).flatMap fun dx =>
      let cx := base_x + (dx : ℤ) - 2
      let cy := base_y + (dy : ℤ) - 2
      if 0 ≤ cx ∧ cx < vsize ∧ 0 ≤ cy ∧ cy < vsize then [(cx, cy)] else []

/-- One entry of the detector's `candidate_tiles` list:
`(viewport_x, viewport_y, tile, map_x, map_y, depth)`. -/
structure Candidate where
  vx : ℤ
  vy : ℤ
  tile : Tile
  mapx : ℤ
  mapy : ℤ
  depth : ℝ

/-- The comparison realising Python's stable sort by key
`(depth, -tile.height)`: depth ascending, then height descending. -/
def candLE (a b : Candidate) : Prop :=
  a.depth < b.depth ∨ (a.depth = b.depth ∧ -a.tile.height ≤ -b.tile.height)

instance : DecidableRel candLE := fun a b => by
  unfold candLE; infer_instance

/-- First element of the (already sorted) candidate list satisfying `p` —
the `for ... break` loop in `MouseHitDetector.get_tile_at_mouse`. -/
def firstHit (p : Candidate → Prop) [DecidablePred p] :
    List Candidate → Option Candidate
  | [] => none
  | c :: rest => if p c then some c else firstHit p rest

/-- Embedding of `MouseHitDetector.get_tile_at_mouse` (result cache and statistics
omitted: they only memoize the pure computation).  `getTile` stands for
`viewport_manager.get_tile_cached`, i.e. the backing map lookup that returns
`none` out of range; candidates with no backing tile are skipped; the rest
are stably sorted by `(depth, -height)` and the first candidate whose
diamond contains the pointer is returned. -/
def get_tile_at_mouse (cell_size height_unit : ℕ)
    (getTile : ℤ → ℤ → Option Tile) (vs : ViewportState)
    (mx my : ℤ) (cam : CameraState) (win_w win_h : ℤ) : Option (ℤ × ℤ) :=
  let candidates := get_candidate_tiles cell_size mx my cam win_w win_h vs.size
  let candidate_tiles := candidates.filterMap fun c =>
    (getTile (c.1 + vs.x) (c.2 + vs.y)).map fun t =>
      { vx := c.1, vy := c.2, tile := t, mapx := c.1 + vs.x, mapy := c.2 + vs.y,
        depth := get_tile_depth (c.1 : ℝ) (c.2 : ℝ) (t.height : ℝ) cam : Candidate }
  let sorted := List.insertionSort candLE candidate_tiles
  (firstHit
      (fun c => is_point_in_diamond cell_size height_unit mx my c.vx c.vy c.tile cam)
      sorted).map
    fun c => (c.vx, c.vy)

/-- The key order realising `App.draw`'s stable sort of
`(depth, x, y)` triples by `item[0]`: depth ascending only. -/
def depthLE (a b : ℝ × ℕ × ℕ) : Prop := a.1 ≤ b.1

instance : DecidableRel depthLE := fun a b => by
  unfold depthLE; infer_instance

instance : IsTotal (ℝ × ℕ × ℕ) depthLE :=
  ⟨fun a b => le_total a.1 b.1⟩

instance : IsTrans (ℝ × ℕ × ℕ) depthLE :=
  ⟨fun _ _ _ h₁ h₂ => le_trans h₁ h₂⟩

/-- The `tiles_with_depth` list built in `App.draw`: row-major over the
`n × n` window (y outer loop, x inner loop), each entry
`(depth, x, y)` with the depth of the tile's height under the camera.
`main.py` runs this with `n = viewport_size = 16`. -/
def tiles_with_depth (n : ℕ) (tiles : ℕ → ℕ → ℤ) (cam : CameraState) :
    List (ℝ × ℕ × ℕ) :=
  (List.range n).flatMap fun y =>
    (List.range n).map fun x =>
      (get_tile_depth ((x : ℕ) : ℝ) ((y : ℕ) : ℝ) ((tiles x y : ℤ) : ℝ) cam, x, y)

/-- The paint order established in `App.draw`: the stable ascending sort of
`tiles_with_depth` by depth; tiles are then drawn in this order
(back to front). -/
def draw_order (n : ℕ) (tiles : ℕ → ℕ → ℤ) (cam : CameraState) :
    List (ℝ × ℕ × ℕ) :=
  List.insertionSort depthLE (tiles_with_depth n tiles cam)

/-- Projection pipeline exactly as claim C1 words it: translate to the
viewport-center-relative vector, rotate that relative vector (identity at
rotation 0), apply the isometric transform directly to the result, then
zoom/pan about the anchor.  Written from the claim text, for comparison
with `grid_to_iso`. -/
def claim_project (cell_size height_unit : ℕ) (gx gy h : ℝ)
    (cam : CameraState) : ℝ × ℝ :=
  let tx := gx - 8
  let ty := gy - 8
  let r : ℝ × ℝ :=
    if cam.rotation = 0 then (tx, ty)
    else
      (tx * Real.cos (radians cam.rotation) - ty * Real.sin (radians cam.rotation),
       tx * Real.sin (radians cam.rotation) + ty * Real.cos (radians cam.rotation))
  let iso_x := (r.1 - r.2) * ((cell_size / 2 : ℕ) : ℝ)
  let iso_y := (r.1 + r.2) * ((cell_size / 4 : ℕ) : ℝ) - h * (height_unit : ℝ)
  (cam.center_x + iso_x * cam.zoom + cam.offset_x,
   cam.center_y + iso_y * cam.zoom + cam.offset_y)

/-- Projection pipeline as claim C1 must read to match the code: after
rotating the center-relative vector, translate back by adding the center
(8, 8) — i.e. the isometric transform is applied to the coordinates rotated
about the viewport center, not to the center-relative vector itself. -/
def amended_project (cell_size height_unit : ℕ) (gx gy h : ℝ)
    (cam : CameraState) : ℝ × ℝ :=
  let r : ℝ × ℝ :=
    if cam.rotation = 0 then (gx, gy)
    else
      ((gx - 8) * Real.cos (radians cam.rotation) -
         (gy - 8) * Real.sin (radians cam.rotation) + 8,
       (gx - 8) * Real.sin (radians cam.rotation) +
         (gy - 8) * Real.cos (radians cam.rotation) + 8)
  let iso_x := (r.1 - r.2) * ((cell_size / 2 : ℕ) : ℝ)
  let iso_y := (r.1 + r.2) * ((cell_size / 4 : ℕ) : ℝ) - h * (height_unit : ℝ)
  (cam.center_x + iso_x * cam.zoom + cam.offset_x,
   cam.center_y + iso_y * cam.zoom + cam.offset_y)

/-- A camera differing from the default only in zoom and pan, for witness
instantiations. -/
def pannedCamera : CameraState :=
  { rotation := 0, zoom := 2, offset_x := 5, offset_y := -3
    center_x := 128, center_y := 96 }

/-- Default camera rotated to 90 degrees. -/
def rotated90Camera : CameraState :=
  { defaultCamera with rotation := 90 }

/-- Default camera rotated to 180 degrees. -/
def rotated180Camera : CameraState :=
  { defaultCamera with rotation := 180 }

/-- Backing map of the divergence scenario: a 2×2 grid, height 1
everywhere except height 3 at (1, 1); `none` outside. -/
def scenTiles : ℤ → ℤ → Option Tile := fun x y =>
  if 0 ≤ x ∧ x < 2 ∧ 0 ≤ y ∧ y < 2 then
    some ⟨if x = 1 ∧ y = 1 then 3 else 1⟩
  else none

/-- Backing map with a single height-1 tile at (0, 0). -/
def witTiles : ℤ → ℤ → Option Tile := fun x y =>
  if x = 0 ∧ y = 0 then some ⟨1⟩ else none

end

theorem rotate_coordinates_center (r : ℝ) :
    rotate_coordinates 8 8 r 8 8 = (8, 8) := by
  unfold rotate_coordinates
  split
  · rfl
  · norm_num

theorem get_tile_depth_congr_rotation {cam cam' : CameraState}
    (hrot : cam.rotation = cam'.rotation) (gx gy h : ℝ) :
    get_tile_depth gx gy h cam = get_tile_depth gx gy h cam' := by
  unfold get_tile_depth
  rw [hrot]

/-- Claim C1 (corrected): the code's projection does NOT apply the isometric
transform to the rotated center-relative vector the claim describes: at the
default camera (rotation 0) and tile (0, 0) the claimed pipeline yields a
screen point 64 pixels above the code's. -/
theorem C1_counterexample :
    grid_to_iso 16 5 0 0 0 defaultCamera ≠ claim_project 16 5 0 0 0 defaultCamera := by
  unfold grid_to_iso claim_project rotate_coordinates defaultCamera
  norm_num

/-- Claim C1 (amended): the projection translates to the viewport-center
relative vector, rotates it (identity at rotation 0), translates back by
adding the center (8, 8), applies the isometric transform
`screenXIso = (rx - ry)·(cellSize/2)`,
`screenYIso = (rx + ry)·(cellSize/4) - height·heightUnit` to those
rotated-about-center coordinates, and finally
`screen = anchor + iso·zoom + pan`. -/
theorem C1_projection_amended (cell_size height_unit : ℕ) (gx gy h : ℝ)
    (cam : CameraState) :
    grid_to_iso cell_size height_unit gx gy h cam =
      amended_project cell_size height_unit gx gy h cam := by
  unfold grid_to_iso amended_project rotate_coordinates
  by_cases hr : cam.rotation = 0
  · simp [hr]
  · simp [hr]

/-- Claim C2 (confirmed): the depth function returns `rx + ry - height·0.1`
where `(rx, ry)` is the tile's coordinate pair rotated about the viewport
center exactly as in projection, and the camera enters only through its
rotation. -/
theorem C2_depth_formula (gx gy h : ℝ) (cam cam' : CameraState)
    (hrot : cam.rotation = cam'.rotation) :
    get_tile_depth gx gy h cam =
      (rotate_coordinates gx gy cam.rotation 8 8).1 +
        (rotate_coordinates gx gy cam.rotation 8 8).2 - h * (1 / 10) ∧
    get_tile_depth gx gy h cam = get_tile_depth gx gy h cam' :=
  ⟨rfl, get_tile_depth_congr_rotation hrot gx gy h⟩

theorem C2_depth_formula_witness :
    get_tile_depth 1 2 3 defaultCamera =
      (rotate_coordinates 1 2 defaultCamera.rotation 8 8).1 +
        (rotate_coordinates 1 2 defaultCamera.rotation 8 8).2 - 3 * (1 / 10) ∧
    get_tile_depth 1 2 3 defaultCamera = get_tile_depth 1 2 3 pannedCamera :=
  C2_depth_formula 1 2 3 defaultCamera pannedCamera rfl

/-- Claim C9 (confirmed): projecting the viewport's logical center (8, 8)
gives the same screen point under any two cameras that differ only in
rotation — rotating never displaces the window's center point on screen. -/
theorem C9_rotation_fixes_center (cell_size height_unit : ℕ) (h : ℝ)
    (cam cam' : CameraState) (hz : cam.zoom = cam'.zoom)
    (hox : cam.offset_x = cam'.offset_x) (hoy : cam.offset_y = cam'.offset_y)
    (hcx : cam.center_x = cam'.center_x) (hcy : cam.center_y = cam'.center_y) :
    grid_to_iso cell_size height_unit 8 8 h cam =
      grid_to_iso cell_size height_unit 8 8 h cam' := by
  unfold grid_to_iso
  rw [rotate_coordinates_center, rotate_coordinates_center, hz, hox, hoy, hcx, hcy]

theorem C9_rotation_fixes_center_witness :
    grid_to_iso 16 5 8 8 7 rotated90Camera = grid_to_iso 16 5 8 8 7 rotated180Camera :=
  C9_rotation_fixes_center 16 5 7 rotated90Camera rotated180Camera rfl rfl rfl rfl rfl

/-- Claim C10 (confirmed): depth is a function of grid coordinate, height
and rotation only — two cameras with equal rotation give equal depths, and
hence the identical paint order for any fixed tile set (zoom and pan never
reorder painting). -/
theorem C10_depth_ignores_zoom_pan (n : ℕ) (tiles : ℕ → ℕ → ℤ)
    (gx gy h : ℝ) (cam cam' : CameraState) (hrot : cam.rotation = cam'.rotation) :
    get_tile_depth gx gy h cam = get_tile_depth gx gy h cam' ∧
    draw_order n tiles cam = draw_order n tiles cam' := by
  refine ⟨get_tile_depth_congr_rotation hrot gx gy h, ?_⟩
  have hd : ∀ x y : ℕ,
      get_tile_depth (x : ℝ) (y : ℝ) ((tiles x y : ℤ) : ℝ) cam =
        get_tile_depth (x : ℝ) (y : ℝ) ((tiles x y : ℤ) : ℝ) cam' :=
    fun x y => get_tile_depth_congr_rotation hrot _ _ _
  unfold draw_order tiles_with_depth
  simp only [hd]

theorem C10_depth_ignores_zoom_pan_witness :
    get_tile_depth 0 0 1 defaultCamera = get_tile_depth 0 0 1 pannedCamera ∧
    draw_order 2 (fun _ _ => 1) defaultCamera = draw_order 2 (fun _ _ => 1) pannedCamera :=
  C10_depth_ignores_zoom_pan 2 (fun _ _ => 1) 0 0 1 defaultCamera pannedCamera rfl

/-- Claim C4 (confirmed): the paint order is the stable ascending sort of
the row-major tile list by depth: it is a permutation of the input, sorted
non-decreasingly by depth (so a strictly smaller depth is painted strictly
earlier), and any input pair with equal depths keeps its input order. -/
theorem C4_paint_order_stable_sort (n : ℕ) (tiles : ℕ → ℕ → ℤ)
    (cam : CameraState) (a b : ℝ × ℕ × ℕ) (hab : a.1 = b.1)
    (hsub : List.Sublist [a, b] (tiles_with_depth n tiles cam)) :
    List.Perm (draw_order n tiles cam) (tiles_with_depth n tiles cam) ∧
    (draw_order n tiles cam).Sorted depthLE ∧
    List.Sublist [a, b] (draw_order n tiles cam) :=
  ⟨List.perm_insertionSort _ _, List.sorted_insertionSort _ _,
    List.pair_sublist_insertionSort (le_of_eq hab) hsub⟩

theorem tiles_with_depth_two_eval :
    tiles_with_depth 2 (fun _ _ => 10) defaultCamera =
      [((-1 : ℝ), 0, 0), (0, 1, 0), (0, 0, 1), (1, 1, 1)] := by
  unfold tiles_with_depth get_tile_depth rotate_coordinates defaultCamera
  norm_num [List.range_succ]

theorem C4_paint_order_stable_sort_witness :
    List.Perm (draw_order 2 (fun _ _ => 10) defaultCamera)
      (tiles_with_depth 2 (fun _ _ => 10) defaultCamera) ∧
    (draw_order 2 (fun _ _ => 10) defaultCamera).Sorted depthLE ∧
    List.Sublist [((0 : ℝ), 1, 0), ((0 : ℝ), 0, 1)] (draw_order 2 (fun _ _ => 10) defaultCamera) :=
  C4_paint_order_stable_sort 2 (fun _ _ => 10) defaultCamera
    ((0 : ℝ), 1, 0) ((0 : ℝ), 0, 1) rfl
    (by
      rw [tiles_with_depth_two_eval]
      exact .cons _ (.cons₂ _ (.cons₂ _ (List.nil_sublist _))))

theorem clampCoord_bounds (s v : ℤ) (hs : s ≤ 256) :
    0 ≤ clampCoord s v ∧ clampCoord s v ≤ 256 - s := by
  unfold clampCoord
  refine ⟨le_max_left _ _, max_le (by omega) (min_le_right _ _)⟩

theorem set_viewport_position_state (vs : ViewportState) (x y : ℤ) :
    (set_viewport_position vs x y).1 =
      ⟨clampCoord vs.size x, clampCoord vs.size y, vs.size⟩ := by
  unfold set_viewport_position
  dsimp only
  split
  · rfl
  · next h =>
      push_neg at h
      rw [h.1, h.2]

theorem set_viewport_position_flag (vs : ViewportState) (x y : ℤ) :
    (set_viewport_position vs x y).2 = true ↔
      (clampCoord vs.size x ≠ vs.x ∨ clampCoord vs.size y ≠ vs.y) := by
  unfold set_viewport_position
  dsimp only
  split
  · next h => simpa using h
  · next h => simpa using h

theorem move_viewport_state (vs : ViewportState) (dx dy : ℤ) :
    (move_viewport vs dx dy).1 =
      ⟨clampCoord vs.size (vs.x + dx), clampCoord vs.size (vs.y + dy), vs.size⟩ := by
  unfold move_viewport
  dsimp only
  split
  · rfl
  · next h =>
      push_neg at h
      rw [h.1, h.2]

theorem move_viewport_flag (vs : ViewportState) (dx dy : ℤ) :
    (move_viewport vs dx dy).2 = true ↔
      (clampCoord vs.size (vs.x + dx) ≠ vs.x ∨ clampCoord vs.size (vs.y + dy) ≠ vs.y) := by
  unfold move_viewport
  dsimp only
  split
  · next h => simpa using h
  · next h => simpa using h

/-- Claim C5 (confirmed): construction, `set_viewport_position` and
`move_viewport` always leave the window position clamped into
`0 ≤ x ≤ 256 - size` (likewise for y) without erroring, and the calls
return `true` exactly when the clamped position differs from the previous
position. -/
theorem C5_viewport_clamping (vs : ViewportState) (x y : ℤ)
    (hs : vs.size ≤ 256) :
    (0 ≤ (set_viewport_position vs x y).1.x ∧
      (set_viewport_position vs x y).1.x ≤ 256 - vs.size ∧
      0 ≤ (set_viewport_position vs x y).1.y ∧
      (set_viewport_position vs x y).1.y ≤ 256 - vs.size) ∧
    ((set_viewport_position vs x y).2 = true ↔
      (clampCoord vs.size x ≠ vs.x ∨ clampCoord vs.size y ≠ vs.y)) ∧
    (0 ≤ (move_viewport vs x y).1.x ∧
      (move_viewport vs x y).1.x ≤ 256 - vs.size ∧
      0 ≤ (move_viewport vs x y).1.y ∧
      (move_viewport vs x y).1.y ≤ 256 - vs.size) ∧
    ((move_viewport vs x y).2 = true ↔
      (clampCoord vs.size (vs.x + x) ≠ vs.x ∨ clampCoord vs.size (vs.y + y) ≠ vs.y)) ∧
    (0 ≤ (ViewportState.init x y vs.size).x ∧
      (ViewportState.init x y vs.size).x ≤ 256 - vs.size ∧
      0 ≤ (ViewportState.init x y vs.size).y ∧
      (ViewportState.init x y vs.size).y ≤ 256 - vs.size) := by
  refine ⟨?_, set_viewport_position_flag vs x y, ?_, move_viewport_flag vs x y, ?_⟩
  · rw [set_viewport_position_state]
    obtain ⟨h1, h2⟩ := clampCoord_bounds vs.size x hs
    obtain ⟨h3, h4⟩ := clampCoord_bounds vs.size y hs
    exact ⟨h1, h2, h3, h4⟩
  · rw [move_viewport_state]
    obtain ⟨h1, h2⟩ := clampCoord_bounds vs.size (vs.x + x) hs
    obtain ⟨h3, h4⟩ := clampCoord_bounds vs.size (vs.y + y) hs
    exact ⟨h1, h2, h3, h4⟩
  · obtain ⟨h1, h2⟩ := clampCoord_bounds vs.size x hs
    obtain ⟨h3, h4⟩ := clampCoord_bounds vs.size y hs
    exact ⟨h1, h2, h3, h4⟩

theorem C5_viewport_clamping_witness :
    0 ≤ (set_viewport_position ⟨120, 120, 16⟩ 300 (-5)).1.x ∧
    (set_viewport_position ⟨120, 120, 16⟩ 300 (-5)).1.x ≤ 256 - 16 ∧
    0 ≤ (set_viewport_position ⟨120, 120, 16⟩ 300 (-5)).1.y ∧
    (set_viewport_position ⟨120, 120, 16⟩ 300 (-5)).1.y ≤ 256 - 16 :=
  (C5_viewport_clamping ⟨120, 120, 16⟩ 300 (-5) (by norm_num)).1

/-- Claim C7 (confirmed): for window-local coordinates inside
`[0, size)²`, converting to backing coordinates and back returns the same
local pair, and any backing coordinate outside the current window maps to
`none`. -/
theorem C7_coordinate_roundtrip (vs : ViewportState) (lx ly bx bz : ℤ)
    (hx0 : 0 ≤ lx) (hx1 : lx < vs.size) (hy0 : 0 ≤ ly) (hy1 : ly < vs.size)
    (hout : ¬ is_position_in_viewport vs bx bz) :
    map_to_viewport_coords vs (viewport_to_map_coords vs lx ly).1
        (viewport_to_map_coords vs lx ly).2 = some (lx, ly) ∧
    map_to_viewport_coords vs bx bz = none := by
  constructor
  · unfold map_to_viewport_coords viewport_to_map_coords
    rw [if_pos]
    · norm_num
    · unfold is_position_in_viewport
      dsimp only
      omega
  · unfold map_to_viewport_coords
    rw [if_neg hout]

theorem C7_coordinate_roundtrip_witness :
    map_to_viewport_coords ⟨10, 20, 16⟩ (viewport_to_map_coords ⟨10, 20, 16⟩ 3 15).1
        (viewport_to_map_coords ⟨10, 20, 16⟩ 3 15).2 = some (3, 15) ∧
    map_to_viewport_coords ⟨10, 20, 16⟩ 500 0 = none :=
  C7_coordinate_roundtrip ⟨10, 20, 16⟩ 3 15 500 0 (by norm_num) (by norm_num)
    (by norm_num) (by norm_num)
    (by unfold is_position_in_viewport; norm_num)

/-- Claim C8 (confirmed): whenever the barycentric denominator is within
the 1e-10 tolerance of zero (in particular for every exactly degenerate
triangle), the point-in-triangle test resolves to "not hit"; the embedded
test is total over all real inputs. -/
theorem C8_degenerate_triangle_not_hit (px py : ℝ) (p1 p2 p3 : ℝ × ℝ)
    (hdeg : |(p2.2 - p3.2) * (p1.1 - p3.1) + (p3.1 - p2.1) * (p1.2 - p3.2)| <
      1 / 10 ^ 10) :
    ¬ point_in_triangle px py p1 p2 p3 := by
  unfold point_in_triangle
  rw [if_pos hdeg]
  exact not_false

theorem C8_degenerate_triangle_not_hit_witness :
    ¬ point_in_triangle 5 5 (0, 0) (0, 0) (0, 0) :=
  C8_degenerate_triangle_not_hit 5 5 (0, 0) (0, 0) (0, 0) (by norm_num)

theorem ceil_neg_five_eighths : (⌈-(5 / 8 : ℝ)⌉ : ℤ) = 0 := by norm_num

theorem cand_eval_window_one :
    get_candidate_tiles 16 136 95 defaultCamera 256 192 1 = [(0, 0)] := by
  unfold get_candidate_tiles
  norm_num [defaultCamera, pyInt, List.range_succ, Int.fdiv, ceil_neg_five_eighths]

theorem cand_eval_window_two :
    get_candidate_tiles 16 136 95 defaultCamera 256 192 2 =
      [(0, 0), (1, 0), (0, 1), (1, 1)] := by
  unfold get_candidate_tiles
  norm_num [defaultCamera, pyInt, List.range_succ, Int.fdiv, ceil_neg_five_eighths]

theorem fdiv_sixteen_two : (16 : ℤ).fdiv 2 = 8 := by decide

theorem fdiv_sixteen_four : (16 : ℤ).fdiv 4 = 4 := by decide

theorem diamond_hit_origin_tile :
    is_point_in_diamond 16 5 136 95 0 0 ⟨1⟩ defaultCamera := by
  unfold is_point_in_diamond grid_to_iso rotate_coordinates point_in_triangle pyInt
  left
  norm_num [defaultCamera, fdiv_sixteen_two, fdiv_sixteen_four]

theorem diamond_hit_tall_tile :
    is_point_in_diamond 16 5 136 95 1 1 ⟨3⟩ defaultCamera := by
  unfold is_point_in_diamond grid_to_iso rotate_coordinates point_in_triangle pyInt
  left
  norm_num [defaultCamera, fdiv_sixteen_two, fdiv_sixteen_four]

theorem depth_eval_00 : get_tile_depth 0 0 1 defaultCamera = -(1 / 10) := by
  unfold get_tile_depth rotate_coordinates
  norm_num [defaultCamera]

theorem depth_eval_10 : get_tile_depth 1 0 1 defaultCamera = 9 / 10 := by
  unfold get_tile_depth rotate_coordinates
  norm_num [defaultCamera]

theorem depth_eval_01 : get_tile_depth 0 1 1 defaultCamera = 9 / 10 := by
  unfold get_tile_depth rotate_coordinates
  norm_num [defaultCamera]

theorem depth_eval_11 : get_tile_depth 1 1 3 defaultCamera = 17 / 10 := by
  unfold get_tile_depth rotate_coordinates
  norm_num [defaultCamera]

theorem hit_eval_single_tile :
    get_tile_at_mouse 16 5 witTiles ⟨0, 0, 1⟩ 136 95 defaultCamera 256 192 =
      some (0, 0) := by
  unfold get_tile_at_mouse
  dsimp only
  rw [cand_eval_window_one]
  simp only [List.filterMap_cons, List.filterMap_nil, witTiles]
  norm_num [List.insertionSort, List.orderedInsert]
  unfold firstHit
  rw [if_pos]
  · exact ⟨_, rfl, rfl, rfl⟩
  · exact diamond_hit_origin_tile

theorem hit_eval_overlap_scenario :
    get_tile_at_mouse 16 5 scenTiles ⟨0, 0, 2⟩ 136 95 defaultCamera 256 192 =
      some (0, 0) := by
  unfold get_tile_at_mouse
  dsimp only
  rw [cand_eval_window_two]
  simp only [List.filterMap_cons, List.filterMap_nil, scenTiles]
  norm_num [List.insertionSort, List.orderedInsert, candLE,
    depth_eval_00, depth_eval_10, depth_eval_01, depth_eval_11]
  unfold firstHit
  rw [if_pos]
  · exact ⟨_, rfl, rfl, rfl⟩
  · exact diamond_hit_origin_tile

/-- Claim C3 (code_bug): the detector does sort candidates by ascending
depth then descending height and return the first hit, but that choice is
the candidate painted FIRST (farthest), not the visibly-top tile: here the
pointer lies in both tile (0, 0) (depth -0.1) and tile (1, 1) (depth 1.7);
the painter draws (1, 1) last, so (1, 1) is visibly on top, yet the
detector returns (0, 0) — contradicting the code's own comment that the
candidates are ordered front-to-back. -/
theorem C3_hit_disambiguation_divergence :
    get_tile_at_mouse 16 5 scenTiles ⟨0, 0, 2⟩ 136 95 defaultCamera 256 192 =
      some (0, 0) ∧
    is_point_in_diamond 16 5 136 95 1 1 ⟨3⟩ defaultCamera ∧
    get_tile_depth 0 0 1 defaultCamera < get_tile_depth 1 1 3 defaultCamera :=
  ⟨hit_eval_overlap_scenario, diamond_hit_tall_tile, by
    rw [depth_eval_00, depth_eval_11]
    norm_num⟩

theorem firstHit_mem {p : Candidate → Prop} [DecidablePred p]
    {l : List Candidate} {c : Candidate} (h : firstHit p l = some c) : c ∈ l := by
  induction l with
  | nil => simp [firstHit] at h
  | cons a rest ih =>
      unfold firstHit at h
      split at h
      · cases h
        exact List.mem_cons_self _ _
      · exact List.mem_cons_of_mem _ (ih h)

theorem mem_ite_singleton {α : Type} {P : Prop} [Decidable P] {x c : α}
    (h : c ∈ if P then [x] else []) : P ∧ c = x := by
  split at h
  · next hp => exact ⟨hp, List.mem_singleton.mp h⟩
  · simp at h

theorem mem_get_candidate_tiles {cell_size : ℕ} {mx my : ℤ} {cam : CameraState}
    {ww wh vsize : ℤ} {c : ℤ × ℤ}
    (h : c ∈ get_candidate_tiles cell_size mx my cam ww wh vsize) :
    0 ≤ c.1 ∧ c.1 < vsize ∧ 0 ≤ c.2 ∧ c.2 < vsize := by
  unfold get_candidate_tiles at h
  simp only [List.mem_flatMap, List.mem_range] at h
  obtain ⟨dy, -, dx, -, hc⟩ := h
  obtain ⟨hcond, rfl⟩ := mem_ite_singleton hc
  exact hcond

/-- Claim C6 (confirmed): whenever the hit test returns a coordinate, that
coordinate lies within `[0, window_size)` on both axes and the backing-grid
lookup for it succeeds — a position whose backing tile is absent is never
returned (the detector skips candidates whose backing lookup is `none`
rather than synthesizing a dummy tile). -/
theorem C6_hit_within_window (cell_size height_unit : ℕ)
    (getTile : ℤ → ℤ → Option Tile) (vs : ViewportState) (mx my : ℤ)
    (cam : CameraState) (ww wh : ℤ) (gx gy : ℤ)
    (h : get_tile_at_mouse cell_size height_unit getTile vs mx my cam ww wh =
      some (gx, gy)) :
    0 ≤ gx ∧ gx < vs.size ∧ 0 ≤ gy ∧ gy < vs.size ∧
      (getTile (gx + vs.x) (gy + vs.y)).isSome = true := by
  unfold get_tile_at_mouse at h
  dsimp only at h
  rw [Option.map_eq_some'] at h
  obtain ⟨c, hc, hfc⟩ := h
  have hmem := firstHit_mem hc
  rw [List.mem_insertionSort, List.mem_filterMap] at hmem
  obtain ⟨a, ha, hmap⟩ := hmem
  rw [Option.map_eq_some'] at hmap
  obtain ⟨t, hts, hrec⟩ := hmap
  obtain ⟨h1, h2, h3, h4⟩ := mem_get_candidate_tiles ha
  subst hrec
  rw [Prod.mk.injEq] at hfc
  obtain ⟨hgx, hgy⟩ := hfc
  subst hgx
  subst hgy
  exact ⟨h1, h2, h3, h4, by rw [hts]; rfl⟩

theorem C6_hit_within_window_witness :
    0 ≤ (0 : ℤ) ∧ (0 : ℤ) < (⟨0, 0, 1⟩ : ViewportState).size ∧
    0 ≤ (0 : ℤ) ∧ (0 : ℤ) < (⟨0, 0, 1⟩ : ViewportState).size ∧
    (witTiles (0 + (⟨0, 0, 1⟩ : ViewportState).x)
      (0 + (⟨0, 0, 1⟩ : ViewportState).y)).isSome = true :=
  C6_hit_within_window 16 5 witTiles ⟨0, 0, 1⟩ 136 95 defaultCamera 256 192 0 0
    hit_eval_single_tile
